import Mathlib

/-!
Verification of the `stringplay-core` sync engine
(`src/packages/stringplay-core/src/services/sync.ts`).

The TypeScript source is shallowly embedded below: JS objects used as
string-keyed maps become association lists (`lookupA` / `setA` / `eraseA`,
which mirror JS property access, assignment and `delete`), the MongoDB
collections touched by the commit become association lists keyed by
document id, and the stateful methods of `SyncTroupe` become pure
functions threading explicit state.
-/

namespace Stringplay

/-- JS object key read (`obj[k]`): first binding wins; keys in our maps are
unique, matching JS object semantics. -/
def lookupA {α β : Type} [DecidableEq α] : List (α × β) → α → Option β
  | [], _ => none
  | (k0, v) :: rest, k => if k = k0 then some v else lookupA rest k

/-- JS object key write (`obj[k] = v`): replaces in place when the key exists,
otherwise appends, preserving JS insertion-order iteration. -/
def setA {α β : Type} [DecidableEq α] : List (α × β) → α → β → List (α × β)
  | [], k, v => [(k, v)]
  | (k0, v0) :: rest, k, v =>
      if k = k0 then (k0, v) :: rest else (k0, v0) :: setA rest k v

/-- JS `delete obj[k]`. -/
def eraseA {α β : Type} [DecidableEq α] : List (α × β) → α → List (α × β)
  | [], _ => []
  | (k0, v0) :: rest, k => if k = k0 then rest else (k0, v0) :: eraseA rest k

/-!
## Sync orchestrator (`SyncTroupe.sync`, sync.ts lines 75-110)

The per-tenant database state is the persisted boolean `syncLock` plus the
rest of the tenant's documents (dashboard, events, members, attendance
buckets), abstracted as a type `ρ`.  None of the inner steps of `sync`
writes `troupeColl.syncLock`: `discoverEvents` and
`discoverAndRefreshAudience` only read collections and mutate in-memory
state, `persistSync` writes the dashboard/event/audience/eventsAttended
collections and the limits ledger, and `refreshLogSheet` only talks to the
external sheet.  The lock is therefore kept outside `ρ`.
-/

/-- Tenant state: the persisted `syncLock` flag plus all other persisted
documents of the tenant (type parameter `ρ`). -/
structure TenantDb (ρ : Type) where
  syncLock : Bool
  rest : ρ

/-- Shallow embedding of `SyncTroupe.sync` (sync.ts lines 75-110).

* Line 76: `assert(!(await this.getTroupeSchema(troupeId)).syncLock, ...)` —
  when the lock is held, `sync` raises to its caller before anything is
  written.
* Lines 79-84: `findOneAndUpdate` sets `syncLock := true`.
* Lines 86-102, the `try` block — dashboard fetch, limits fetch,
  `discoverEvents`, `discoverAndRefreshAudience`, `persistSync`,
  `refreshLogSheet` — is abstracted as `body`, an arbitrary function from
  the non-lock state to a new non-lock state together with `some err` when
  one of the steps raised.  The `catch` clause (lines 99-102) only logs the
  error: it is not re-raised.
* Lines 105-109: `updateOne` clears the lock; its `modifiedCount` is `1`
  exactly when the document's `syncLock` was still `true`, which it is,
  since no inner step touches it.

The returned `Option String` is the error `sync` raises to its caller
(`none` = normal return). -/
def sync {ρ : Type} (db : TenantDb ρ) (body : ρ → ρ × Option String) :
    TenantDb ρ × Option String :=
  if db.syncLock then
    (db, some "Troupe is already being synced")
  else
    let locked : TenantDb ρ := { db with syncLock := true }
    let stepResult := body locked.rest
    -- `catch(e)`: `stepResult.2` is logged (`console.error`), never re-raised
    let modifiedCount : Nat := if locked.syncLock then 1 else 0
    let unlocked : TenantDb ρ := { syncLock := false, rest := stepResult.1 }
    if modifiedCount = 1 then (unlocked, none)
    else (unlocked, some "Failed to unlock troupe after sync")

/-- C1: for every tenant whose `syncLock` is false when `sync` is called,
`sync` returns normally to its caller under every internal outcome of the
try-block (folder/event discovery, audience discovery, persistence or log
publication raising is only logged, never re-raised), and the tenant's
`syncLock` is false after `sync` returns. -/
theorem C1_sync_swallows_failures_and_unlocks {ρ : Type} (db : TenantDb ρ)
    (body : ρ → ρ × Option String) (h : db.syncLock = false) :
    (sync db body).2 = none ∧ (sync db body).1.syncLock = false := by
  simp [sync, h]

/-- Witness for C1 at a concrete tenant state and a body that both mutates
the state and raises. -/
theorem C1_sync_swallows_failures_and_unlocks_witness :
    (sync (⟨false, 0⟩ : TenantDb Nat) (fun r => (r + 1, some "boom"))).2 = none ∧
    (sync (⟨false, 0⟩ : TenantDb Nat) (fun r => (r + 1, some "boom"))).1.syncLock = false :=
  C1_sync_swallows_failures_and_unlocks ⟨false, 0⟩ (fun r => (r + 1, some "boom")) rfl

/-- C2: if a tenant's `syncLock` is already true when `sync` is called,
`sync` raises to the caller (the assertion on sync.ts line 76) and no
persisted document of the tenant changes — the returned state is exactly
the input state, lock included. -/
theorem C2_sync_fails_fast_when_locked {ρ : Type} (db : TenantDb ρ)
    (body : ρ → ρ × Option String) (h : db.syncLock = true) :
    sync db body = (db, some "Troupe is already being synced") := by
  simp [sync, h]

/-- Witness for C2 at a concrete locked tenant state. -/
theorem C2_sync_fails_fast_when_locked_witness :
    sync (⟨true, 7⟩ : TenantDb Nat) (fun r => (r + 1, none)) =
      ((⟨true, 7⟩ : TenantDb Nat), some "Troupe is already being synced") :=
  C2_sync_fails_fast_when_locked ⟨true, 7⟩ (fun r => (r + 1, none)) rfl

/-!
## Folder ownership tie-break (`SyncTroupe.performEventTypeTieBreaker`,
sync.ts lines 271-282, and the claim-update step, lines 141-155)

In the source, discovered-file counts live in the `totalFiles` field of the
per-event-type `DiscoveryEventType` objects, which are shared by reference
across every map entry owned by the same event type; we therefore model the
counts as a single association list keyed by event-type id. Event types are
identified by their `_id` (`Nat` here); JS reference equality between
`DiscoveryEventType` objects coincides with id equality because exactly one
such object exists per event type.
-/

/-- Tie-break state: the folder → owning-event-type map
(`folderToEventTypeMap`), the per-event-type discovered-file counts
(`totalFiles`), and the worklist (`foldersToExplore`, head = top of the
LIFO stack, matching JS `push`/`pop` at the array end). -/
structure TBState where
  folderMap : List (Nat × Nat)
  counts : List (Nat × Int)
  queue : List Nat
  deriving DecidableEq

/-- The `totalFiles` count of an event type (0 before it wins anything,
matching `{ ...eventType, totalFiles: 0 }`). -/
def countOf (counts : List (Nat × Int)) (t : Nat) : Int :=
  (lookupA counts t).getD 0

/-- sync.ts lines 271-282: the existing owner keeps the folder only if its
`totalFiles` is strictly less than the challenger's; otherwise (no existing
owner, tie, or challenger strictly lower) the challenger wins. -/
def performEventTypeTieBreaker (counts : List (Nat × Int))
    (existing : Option Nat) (current : Nat) : Nat :=
  match existing with
  | none => current
  | some e => if countOf counts e < countOf counts current then e else current

/-- sync.ts lines 139-155 (event-type initialization): run the tie-breaker
for `currentTy`'s claim on `folderId`; when the winner differs from the
current map entry, decrement the previous owner's count (if any), increment
the winner's count, record the new owner and push the folder onto the
worklist. -/
def claimFolder (s : TBState) (folderId : Nat) (currentTy : Nat) : TBState :=
  let existing := lookupA s.folderMap folderId
  let winner := performEventTypeTieBreaker s.counts existing currentTy
  if existing = some winner then s
  else
    let counts1 :=
      match existing with
      | some prev => setA s.counts prev (countOf s.counts prev - 1)
      | none => s.counts
    let counts2 := setA counts1 winner (countOf counts1 winner + 1)
    { folderMap := setA s.folderMap folderId winner
      counts := counts2
      queue := folderId :: s.queue }

/-- C5: for a folder owned by event type `A` (count `a`) challenged by a
distinct event type `B` (count `b`): `A` retains the folder iff `a < b`
(and then nothing changes); otherwise — on a tie or when `b ≤ a` — `B`
wins, `A`'s count is decremented, `B`'s count is incremented and the folder
is re-enqueued; with no existing owner the challenger wins with only an
increment. -/
theorem C5_tie_breaker_strictly_less_retains (A B F : Nat) (a b : Int)
    (hAB : A ≠ B) :
    ((a < b →
        claimFolder ⟨[(F, A)], [(A, a), (B, b)], []⟩ F B =
          ⟨[(F, A)], [(A, a), (B, b)], []⟩) ∧
      (¬ a < b →
        (claimFolder ⟨[(F, A)], [(A, a), (B, b)], []⟩ F B).folderMap = [(F, B)] ∧
        countOf (claimFolder ⟨[(F, A)], [(A, a), (B, b)], []⟩ F B).counts A = a - 1 ∧
        countOf (claimFolder ⟨[(F, A)], [(A, a), (B, b)], []⟩ F B).counts B = b + 1 ∧
        (claimFolder ⟨[(F, A)], [(A, a), (B, b)], []⟩ F B).queue = [F]) ∧
      (lookupA (claimFolder ⟨[(F, A)], [(A, a), (B, b)], []⟩ F B).folderMap F
          = some A ↔ a < b)) ∧
    (lookupA (claimFolder ⟨[], [(A, a), (B, b)], []⟩ F B).folderMap F = some B ∧
      countOf (claimFolder ⟨[], [(A, a), (B, b)], []⟩ F B).counts B = b + 1 ∧
      countOf (claimFolder ⟨[], [(A, a), (B, b)], []⟩ F B).counts A = a) := by
  have hBA : B ≠ A := fun h => hAB h.symm
  by_cases hab : a < b
  · constructor
    · refine ⟨fun _ => ?_, fun h => absurd hab h, ?_⟩
      · simp [claimFolder, performEventTypeTieBreaker, countOf, lookupA, hBA, hab]
      · simp [claimFolder, performEventTypeTieBreaker, countOf, lookupA, hBA, hab]
    · simp [claimFolder, performEventTypeTieBreaker, countOf, lookupA, setA, hBA, hAB, hab]
  · constructor
    · refine ⟨fun h => absurd h hab, fun _ => ?_, ?_⟩
      · simp [claimFolder, performEventTypeTieBreaker, countOf, lookupA, setA, hBA, hAB, hab]
      · simp [claimFolder, performEventTypeTieBreaker, countOf, lookupA, setA, hBA, hAB, hab]
    · simp [claimFolder, performEventTypeTieBreaker, countOf, lookupA, setA, hBA, hAB, hab]

/-- Witness for C5 at the tie instance from the spec: owner `A` with count
1, challenger `B` with count 1 — the challenger wins. -/
theorem C5_tie_breaker_strictly_less_retains_witness :
    ((1 < (1 : Int) →
        claimFolder ⟨[(5, 0)], [(0, 1), (1, 1)], []⟩ 5 1 =
          ⟨[(5, 0)], [(0, 1), (1, 1)], []⟩) ∧
      (¬ (1 : Int) < 1 →
        (claimFolder ⟨[(5, 0)], [(0, 1), (1, 1)], []⟩ 5 1).folderMap = [(5, 1)] ∧
        countOf (claimFolder ⟨[(5, 0)], [(0, 1), (1, 1)], []⟩ 5 1).counts 0 = 1 - 1 ∧
        countOf (claimFolder ⟨[(5, 0)], [(0, 1), (1, 1)], []⟩ 5 1).counts 1 = 1 + 1 ∧
        (claimFolder ⟨[(5, 0)], [(0, 1), (1, 1)], []⟩ 5 1).queue = [5]) ∧
      (lookupA (claimFolder ⟨[(5, 0)], [(0, 1), (1, 1)], []⟩ 5 1).folderMap 5
          = some 0 ↔ (1 : Int) < 1)) ∧
    (lookupA (claimFolder ⟨[], [(0, 1), (1, 1)], []⟩ 5 1).folderMap 5 = some 1 ∧
      countOf (claimFolder ⟨[], [(0, 1), (1, 1)], []⟩ 5 1).counts 1 = 1 + 1 ∧
      countOf (claimFolder ⟨[], [(0, 1), (1, 1)], []⟩ 5 1).counts 0 = 1) :=
  C5_tie_breaker_strictly_less_retains 0 1 5 1 1 (by decide)

/-!
## Event discovery (`SyncTroupe.discoverEvents`, sync.ts lines 113-268)

Google Drive file ids and folder ids are `Nat`; a file's mime type is
abstracted to its classification (`FileKind`): a Drive folder
(`DRIVE_FOLDER_MIME`), a recognized event data source
(`EVENT_DATA_SOURCE_MIME_TYPES`: Google Forms / Google Sheets), or
anything else.  A source uri (`getDataSourceUrl(source, file.id)`) is the
injective pair of the source kind and the file id.  Event titles and
dates play no role in the verified claims and are omitted; the
event-type linkage (`eventTypeId`, `value`) and provenance (`fromColl`)
are kept.
-/

/-- Classification of a Drive child entry by mime type. -/
inductive FileKind
  | folder
  | forms
  | sheets
  | other
  deriving DecidableEq

/-- A child entry returned by `drive.files.list` for a folder. -/
structure DriveFile where
  fid : Nat
  kind : FileKind
  deriving DecidableEq

/-- `getDataSourceUrl(source, id)` — injective tagging of a file id by its
source kind. -/
abbrev SourceUri := FileKind × Nat

/-- An entry of `this.eventMap`: the event's type linkage, its point value
and whether it was loaded from the events collection (`fromColl`). -/
structure EventEntry where
  eventTypeId : Option Nat
  value : Int
  fromColl : Bool
  deriving DecidableEq

/-- An event type of the troupe document (`troupe.eventTypes`). -/
structure EventTypeDef where
  id : Nat
  value : Int
  sourceFolderUris : List Nat
  deriving DecidableEq

/-- The limits snapshot fetched once at sync start
(`this.currentLimits = await this.limitService.getTroupeLimits(troupeId)`);
it is not mutated during event discovery. -/
structure SyncLimits where
  eventsLeft : Int
  sourceFolderUrisLeft : Int
  deriving DecidableEq

/-- The in-memory state threaded through `discoverEvents`: the event map,
the tie-break state (ownership map, counts, worklist), the list of already
expanded folders and the local projected limit deltas
(`this.incrementLimits`, both starting at 0 and only ever decremented). -/
structure DiscoverState where
  eventMap : List (SourceUri × EventEntry)
  tb : TBState
  discovered : List Nat
  eventsLeftIncr : Int
  foldersLeftIncr : Int
  deriving DecidableEq

/-- `value` of the event type with the given id (`currentEventType.value`). -/
def eventTypeValue (eventTypes : List EventTypeDef) (t : Nat) : Int :=
  ((eventTypes.find? (fun et => et.id == t)).map (fun et => et.value)).getD 0

/-- sync.ts lines 200-222: handling of a child entry that is itself a Drive
folder, translated verbatim.  Note the source passes `folderId` — the id of
the folder currently being expanded, not the child's id — to the
tie-breaker, compares the winner against `folderToEventTypeMap[folderId]`,
and pushes `folderId` back onto the worklist; the child folder id
(`file.id`) is never used.  The quota gate for brand-new folders (lines
210-215) compares the limits snapshot against the projected delta. -/
def claimChildFolder (limits : SyncLimits) (s : DiscoverState)
    (folderId : Nat) (currentOwner : Nat) : DiscoverState :=
  let existing := lookupA s.tb.folderMap folderId
  let winner := performEventTypeTieBreaker s.tb.counts existing currentOwner
  if existing = some winner then s
  else
    match existing with
    | some prev =>
        { s with tb :=
            { folderMap := setA s.tb.folderMap folderId winner
              counts :=
                let counts1 := setA s.tb.counts prev (countOf s.tb.counts prev - 1)
                setA counts1 winner (countOf counts1 winner + 1)
              queue := folderId :: s.tb.queue } }
    | none =>
        if limits.sourceFolderUrisLeft = s.foldersLeftIncr then s
        else
          { s with
            tb :=
              { folderMap := setA s.tb.folderMap folderId winner
                counts := setA s.tb.counts winner (countOf s.tb.counts winner + 1)
                queue := folderId :: s.tb.queue }
            foldersLeftIncr := s.foldersLeftIncr - 1 }

/-- sync.ts lines 193-266: processing of one child entry of the folder
`folderId`, whose owning event type (read once before the loop, line 192)
is `currentOwner`.

* Folder children go through `claimChildFolder` (with the parent's id, as
  in the source).
* Recognized source files: if the uri is already in the event map, only a
  missing event-type linkage is backfilled (lines 234-240); otherwise a new
  event is created unless the "new events" gate fires — the source's gate
  is `currentLimits.eventsLeft === incrementLimits.eventsLeft`
  (line 242) — and the projected delta is decremented (line 264).
* Anything else is skipped. -/
def processFile (limits : SyncLimits) (eventTypes : List EventTypeDef)
    (folderId : Nat) (currentOwner : Nat) (s : DiscoverState)
    (f : DriveFile) : DiscoverState :=
  match f.kind with
  | FileKind.folder => claimChildFolder limits s folderId currentOwner
  | FileKind.other => s
  | k =>
      let uri : SourceUri := (k, f.fid)
      match lookupA s.eventMap uri with
      | some entry =>
          if entry.eventTypeId = none then
            let backfilled : EventEntry :=
              { entry with
                eventTypeId := some currentOwner
                value := eventTypeValue eventTypes currentOwner }
            { s with eventMap := setA s.eventMap uri backfilled }
          else s
      | none =>
          if limits.eventsLeft = s.eventsLeftIncr then s
          else
            { s with
              eventMap := setA s.eventMap uri
                ⟨some currentOwner, eventTypeValue eventTypes currentOwner, false⟩
              eventsLeftIncr := s.eventsLeftIncr - 1 }

/-- Expansion of one folder after a successful listing: the owning event
type is read once (`currentDiscoveryEventType`, line 192) and each child is
processed in order.  A folder with no map entry is skipped — in the source
this only arises on a stale duplicate worklist entry after a listing
failure, where the subsequent field accesses on `undefined` would raise and
abort discovery. -/
def expandFolder (limits : SyncLimits) (eventTypes : List EventTypeDef)
    (folderId : Nat) (files : List DriveFile) (s : DiscoverState) :
    DiscoverState :=
  match lookupA s.tb.folderMap folderId with
  | none => s
  | some ownerId => files.foldl (processFile limits eventTypes folderId ownerId) s

/-- sync.ts lines 164-267: the worklist loop.  `drive` maps a folder id to
its listing (`none` models a listing failure, lines 177-187, which removes
the folder's ownership entry and un-marks it as discovered before
continuing).  `fuel` bounds the number of iterations; every claim below is
evaluated at a fuel large enough for the loop to drain its worklist. -/
def exploreLoop (limits : SyncLimits) (eventTypes : List EventTypeDef)
    (drive : Nat → Option (List DriveFile)) :
    Nat → DiscoverState → DiscoverState
  | 0, s => s
  | Nat.succ fuel, s =>
      match s.tb.queue with
      | [] => s
      | folderId :: rest =>
          let s1 : DiscoverState := { s with tb := { s.tb with queue := rest } }
          if folderId ∈ s1.discovered then
            exploreLoop limits eventTypes drive fuel s1
          else
            let s2 : DiscoverState :=
              { s1 with discovered := s1.discovered ++ [folderId] }
            match drive folderId with
            | none =>
                exploreLoop limits eventTypes drive fuel
                  { s2 with
                    tb := { s2.tb with folderMap := eraseA s2.tb.folderMap folderId }
                    discovered := s2.discovered.dropLast }
            | some files =>
                exploreLoop limits eventTypes drive fuel
                  (expandFolder limits eventTypes folderId files s2)

/-- sync.ts lines 136-156: seed the ownership map, counts and worklist from
the declared source folders of every event type (each event type starts
with `totalFiles: 0`). -/
def seedEventTypes (eventTypes : List EventTypeDef) : TBState :=
  eventTypes.foldl
    (fun tb et => et.sourceFolderUris.foldl (fun tb2 f => claimFolder tb2 f et.id) tb)
    ⟨[], [], []⟩

/-- `SyncTroupe.discoverEvents` end to end: initialize the event map from
the events collection (`fromColl: true`, lines 118-123), seed the event
types, then run the worklist loop. -/
def discoverEvents (fuel : Nat) (limits : SyncLimits)
    (eventTypes : List EventTypeDef)
    (existingEvents : List (SourceUri × EventEntry))
    (drive : Nat → Option (List DriveFile)) : DiscoverState :=
  exploreLoop limits eventTypes drive fuel
    { eventMap := existingEvents.map (fun e => (e.1, { e.2 with fromColl := true }))
      tb := seedEventTypes eventTypes
      discovered := []
      eventsLeftIncr := 0
      foldersLeftIncr := 0 }

/-- C3, evaluated at the code's failing input.  First conjunct: the
claim's stated instance holds — with the "new events" snapshot equal to 0
at sync start, a folder containing one already-known file (whose event-type
linkage is still backfilled) and two never-seen files produces no new event
record and leaves the projected delta at 0.  Remaining conjuncts: the
failing input — with 1 "new event" remaining and two never-seen files, the
gate `currentLimits.eventsLeft === incrementLimits.eventsLeft` (1 vs 0,
then 1 vs -1) never fires, both files become new event records and the
projected delta (-2) overshoots the remaining quota, the state
`persistSync`'s own assertion calls "unintended behavior". -/
theorem C3_new_event_quota_gate_evaluated :
    ((discoverEvents 5 ⟨0, 0⟩ [⟨1, 10, [1]⟩]
        [((FileKind.forms, 50), ⟨none, 0, false⟩)]
        (fun f => if f = 1
          then some [⟨50, FileKind.forms⟩, ⟨60, FileKind.forms⟩, ⟨61, FileKind.forms⟩]
          else none)).eventMap
        = [((FileKind.forms, 50), ⟨some 1, 10, true⟩)] ∧
      (discoverEvents 5 ⟨0, 0⟩ [⟨1, 10, [1]⟩]
        [((FileKind.forms, 50), ⟨none, 0, false⟩)]
        (fun f => if f = 1
          then some [⟨50, FileKind.forms⟩, ⟨60, FileKind.forms⟩, ⟨61, FileKind.forms⟩]
          else none)).eventsLeftIncr = 0) ∧
    ((discoverEvents 5 ⟨1, 0⟩ [⟨1, 10, [1]⟩] []
        (fun f => if f = 1
          then some [⟨60, FileKind.forms⟩, ⟨61, FileKind.forms⟩]
          else none)).eventMap
        = [((FileKind.forms, 60), ⟨some 1, 10, false⟩),
           ((FileKind.forms, 61), ⟨some 1, 10, false⟩)] ∧
      (discoverEvents 5 ⟨1, 0⟩ [⟨1, 10, [1]⟩] []
        (fun f => if f = 1
          then some [⟨60, FileKind.forms⟩, ⟨61, FileKind.forms⟩]
          else none)).eventsLeftIncr = -2 ∧
      (1 : Int) + (discoverEvents 5 ⟨1, 0⟩ [⟨1, 10, [1]⟩] []
        (fun f => if f = 1
          then some [⟨60, FileKind.forms⟩, ⟨61, FileKind.forms⟩]
          else none)).eventsLeftIncr < 0) := by
  decide

/-- C8, evaluated at the code's failing input: event type 1 owns folder 1,
folder 1 contains the sub-folder 2, and folder 2 contains a recognized
source file 70.  Because the folder branch (sync.ts lines 200-222) passes
the parent's id `folderId` to the tie-breaker instead of the child's
`file.id`, the computed winner is always the parent's current owner, the
guard `winningEventType != folderToEventTypeMap[folderId]` fails, and
nothing is enqueued: after the run (ample fuel and folder quota) the child
folder 2 has no owner, was never expanded, its file 70 was never
discovered, the worklist is drained and no folder quota was consumed. -/
theorem C8_child_folders_never_expanded :
    lookupA (discoverEvents 10 ⟨5, 5⟩ [⟨1, 10, [1]⟩] []
        (fun f => if f = 1 then some [⟨2, FileKind.folder⟩]
          else if f = 2 then some [⟨70, FileKind.forms⟩] else none)).tb.folderMap 2
      = none ∧
    (discoverEvents 10 ⟨5, 5⟩ [⟨1, 10, [1]⟩] []
        (fun f => if f = 1 then some [⟨2, FileKind.folder⟩]
          else if f = 2 then some [⟨70, FileKind.forms⟩] else none)).discovered
      = [1] ∧
    lookupA (discoverEvents 10 ⟨5, 5⟩ [⟨1, 10, [1]⟩] []
        (fun f => if f = 1 then some [⟨2, FileKind.folder⟩]
          else if f = 2 then some [⟨70, FileKind.forms⟩] else none)).eventMap
        (FileKind.forms, 70)
      = none ∧
    (discoverEvents 10 ⟨5, 5⟩ [⟨1, 10, [1]⟩] []
        (fun f => if f = 1 then some [⟨2, FileKind.folder⟩]
          else if f = 2 then some [⟨70, FileKind.forms⟩] else none)).tb.queue
      = [] ∧
    (discoverEvents 10 ⟨5, 5⟩ [⟨1, 10, [1]⟩] []
        (fun f => if f = 1 then some [⟨2, FileKind.folder⟩]
          else if f = 2 then some [⟨70, FileKind.forms⟩] else none)).foldersLeftIncr
      = 0 := by
  decide

/-!
## Audience initialization and validation
(`SyncTroupe.discoverAndRefreshAudience`, sync.ts lines 288-355, and the
member part of `SyncTroupe.persistSync`, lines 441-458)

Member property values are modelled as `Option String` (`none` = JS
`undefined`/absent); `PropVal.override` is the operator-override flag.
-/

/-- A member property: its value and the operator-override flag. -/
structure PropVal where
  value : Option String
  override : Bool
  deriving DecidableEq

/-- sync.ts lines 313-325: rebuild `member.properties` over the tenant's
property schema — a property present with `override` set is kept as is;
every other tenant-defined property is rebuilt as
`{ value: member.properties[prop]?.value, override: false }`, i.e. its
stored value is carried over (or `undefined` when absent) and only the
flag is reset. -/
def refreshProps (memberPropertyTypes : List String)
    (props : List (String × PropVal)) : List (String × PropVal) :=
  memberPropertyTypes.foldl
    (fun base p =>
      match lookupA props p with
      | some pv =>
          if pv.override then setA base p pv
          else setA base p ⟨pv.value, false⟩
      | none => setA base p ⟨none, false⟩)
    []

/-- sync.ts lines 308-311: set the member's total for every tenant point
type to 0 (other keys of `member.points` are untouched). -/
def resetPoints (pointTypes : List String) (points : List (String × Int)) :
    List (String × Int) :=
  pointTypes.foldl (fun pts p => setA pts p 0) points

/-- C7, evaluated at the code's failing input.  The claim (and §4.3 of the
spec) says a non-overridden tenant-defined property is blanked at audience
initialization; line 320 of sync.ts instead carries the stored value over
and only resets the flag.  First conjunct: a stored, non-overridden
"Email" keeps its value (it is not blanked to `none`).  The other
conjuncts check the parts of the claim the code does satisfy: an
overridden property is kept verbatim and every tenant point type is reset
to zero. -/
theorem C7_nonoverridden_values_kept_not_blanked :
    refreshProps ["Email"] [("Email", ⟨some "a@b.c", false⟩)]
      = [("Email", ⟨some "a@b.c", false⟩)] ∧
    refreshProps ["Nickname"] [("Nickname", ⟨some "Ace", true⟩)]
      = [("Nickname", ⟨some "Ace", true⟩)] ∧
    resetPoints ["Total"] [("Total", 57)] = [("Total", 0)] := by
  decide

/-- An entry of `this.attendeeMap`: the member's storage id, its rebuilt
properties, whether it was loaded from the audience collection
(`fromColl`), the deletion flag, and the ids of its stored attendance
buckets (`eventsAttendedDocs`). -/
structure MemberData where
  memberId : Nat
  props : List (String × PropVal)
  fromColl : Bool
  del : Bool
  eventsAttendedDocIds : List Nat
  deriving DecidableEq

/-- JS `String.prototype.endsWith`, expressed over the character list so
that it evaluates inside the kernel. -/
def strEndsWith (s post : String) : Bool :=
  post.data.isSuffixOf s.data

/-- sync.ts lines 337-343: the properties whose declared type ends in `!`
are required. -/
def requiredProperties (memberPropertyTypes : List (String × String)) :
    List String :=
  (memberPropertyTypes.filter (fun p => strEndsWith p.2 "!")).map (fun p => p.1)

/-- The JS truthiness test `!member.member.properties[prop].value`
(line 349): `undefined` and the empty string are falsy.  (A property key
absent altogether would make the source raise on the `.value` access; it
cannot arise after `refreshProps`, which covers every tenant-defined
property, and is treated as missing here.) -/
def requiredMissing (props : List (String × PropVal)) (p : String) : Bool :=
  match lookupA props p with
  | none => true
  | some pv =>
      match pv.value with
      | none => true
      | some s => s == ""

/-- sync.ts lines 345-354: flag a member for deletion when any required
property has no value. -/
def markDeletion (required : List String) (m : MemberData) : MemberData :=
  { m with del := m.del || required.any (fun p => requiredMissing m.props p) }

/-- sync.ts lines 441-458: split the attendee map into the member upsert
list (`updateAudience`), the member delete list (`membersToDelete`) and the
bucket ids deleted because their member is deleted
(`eventsAttendedToDelete`, line 451-456 part).  A member flagged for
deletion is removed — with all of its buckets — only when it came from the
collection; every other member, flagged or not, falls through to
`updateAudience.push(memberData.member)`. -/
def persistSelection (attendees : List MemberData) :
    List Nat × List Nat × List Nat :=
  attendees.foldl
    (fun acc m =>
      if m.del && m.fromColl then
        (acc.1, acc.2.1 ++ [m.memberId], acc.2.2 ++ m.eventsAttendedDocIds)
      else
        (acc.1 ++ [m.memberId], acc.2.1, acc.2.2))
    ([], [], [])

/-- C4, evaluated at the code's failing input.  Tenant schema: required
"Member ID" and "Email".  Member 1 (stored) and member 2 (brand-new this
sync) both lack "Email"; member 3 (stored) is valid.  After validation
marking, the stored invalid member 1 is deleted together with both of its
buckets — that half of the claim holds — but the brand-new invalid member
2, although flagged (`del = true`), falls through the
`memberData.delete && memberData.fromColl` guard and is placed on the
member upsert list: it is persisted by the commit, contradicting the
claim. -/
theorem C4_new_invalid_member_is_persisted :
    persistSelection
        ([⟨1, [("Member ID", ⟨some "m1", false⟩), ("Email", ⟨none, false⟩)],
            true, false, [101, 102]⟩,
          ⟨2, [("Member ID", ⟨some "m2", false⟩), ("Email", ⟨none, false⟩)],
            false, false, []⟩,
          ⟨3, [("Member ID", ⟨some "m3", false⟩), ("Email", ⟨some "c@d.e", false⟩)],
            true, false, [103]⟩].map
          (markDeletion (requiredProperties
            [("Member ID", "string!"), ("Email", "string!")])))
      = ([2, 3], [1], [101, 102]) ∧
    (markDeletion (requiredProperties
        [("Member ID", "string!"), ("Email", "string!")])
      ⟨2, [("Member ID", ⟨some "m2", false⟩), ("Email", ⟨none, false⟩)],
        false, false, []⟩).del = true := by
  decide

/-!
## Attendance-bucket reconciliation (`SyncTroupe.persistSync`,
sync.ts lines 472-521, with `MAX_PAGE_SIZE` from
`src/packages/mytroupe-core/src/util/constants.ts` line 2)

For a member not flagged for deletion, the accumulated attendance records
(`memberData.eventsAttended`) are split into pages of `MAX_PAGE_SIZE`; for
each page index the previously stored bucket at that index
(`memberData.eventsAttendedDocs[page]`, sorted by ascending page) is
reused when it exists, otherwise a fresh bucket is allocated; stored
buckets beyond the final page counter are scheduled for deletion
(`slice(page)`, lines 515-520).
-/

/-- `MAX_PAGE_SIZE` (constants.ts line 2). -/
def MAX_PAGE_SIZE : Nat := 30

/-- One accumulated attendance record of a member
(`memberData.eventsAttended[i]`): the event id and its point value (the
event-type id and start date it also carries play no role in C6). -/
structure AttRecord where
  eventId : Nat
  value : Int
  deriving DecidableEq

/-- A stored or newly allocated events-attended bucket; `events` is keyed
by event id. -/
structure Bucket where
  bid : Nat
  memberId : Nat
  page : Nat
  events : List (Nat × Int)
  deriving DecidableEq

/-- sync.ts lines 472-513, the per-member `while` loop, translated
verbatim.  Each iteration builds the fresh `events` object from the page's
slice of records, but assigns it only into a *newly allocated* bucket
(lines 479-487); a reused bucket (`eventsAttendedDocs[page]` present) is
pushed to the upsert list with its previously stored `events` untouched —
the freshly built `events` object is discarded.  Fresh bucket ids
(`new ObjectId()`) are modelled as `1000 + page`. -/
def bucketPages (stored : List Bucket) (memberId : Nat) :
    Nat → List AttRecord → Nat → List Bucket
  | 0, _, _ => []
  | _, [], _ => []
  | Nat.succ fuel, r :: rs, page =>
      let chunk := (r :: rs).take MAX_PAGE_SIZE
      let doc :=
        match stored.get? page with
        | some d => d
        | none =>
            ⟨1000 + page, memberId, page,
              chunk.map (fun a => (a.eventId, a.value))⟩
      doc :: bucketPages stored memberId fuel ((r :: rs).drop MAX_PAGE_SIZE) (page + 1)

/-- The bucket upsert list and the ids of the surplus stored buckets
(`slice(page)`, sync.ts lines 515-520) for one member not flagged for
deletion.  The structural fuel `records.length` always suffices: every
iteration of the source's `while` loop consumes at least one record. -/
def computeBuckets (stored : List Bucket) (memberId : Nat)
    (records : List AttRecord) : List Bucket × List Nat :=
  let pages := bucketPages stored memberId records.length records 0
  (pages, (stored.drop pages.length).map (fun b => b.bid))

/-- C6, evaluated at the code's failing input.  Second half of the
conjunction (fresh member, no stored buckets): 65 records yield exactly
`ceil(65/30) = 3` buckets of sizes 30, 30, 5 — the claim's arithmetic
holds when every page is newly allocated.  First half (ample stored
buckets): with 4 previously stored buckets of sizes 10, 1, 0, 1, the same
65 records still yield 3 buckets and the 4th stored bucket is deleted, but
the three written buckets are the stored documents with their old `events`
(sizes 10, 1, 0, with the old event ids), not pages of sizes 30, 30, 5 of
this sync's records: the freshly built page contents are discarded for
every reused bucket, contradicting the claim. -/
theorem C6_reused_buckets_keep_stale_events :
    (computeBuckets
        [⟨201, 7, 0, (List.range 10).map (fun i => (100 + i, 1))⟩,
         ⟨202, 7, 1, [(200, 1)]⟩, ⟨203, 7, 2, []⟩, ⟨204, 7, 3, [(300, 1)]⟩] 7
        ((List.range 65).map (fun i => ⟨i, 1⟩))).1
      = [⟨201, 7, 0, (List.range 10).map (fun i => (100 + i, 1))⟩,
         ⟨202, 7, 1, [(200, 1)]⟩, ⟨203, 7, 2, []⟩] ∧
    ((computeBuckets
        [⟨201, 7, 0, (List.range 10).map (fun i => (100 + i, 1))⟩,
         ⟨202, 7, 1, [(200, 1)]⟩, ⟨203, 7, 2, []⟩, ⟨204, 7, 3, [(300, 1)]⟩] 7
        ((List.range 65).map (fun i => ⟨i, 1⟩))).1.map
        (fun b => b.events.length))
      = [10, 1, 0] ∧
    (computeBuckets
        [⟨201, 7, 0, (List.range 10).map (fun i => (100 + i, 1))⟩,
         ⟨202, 7, 1, [(200, 1)]⟩, ⟨203, 7, 2, []⟩, ⟨204, 7, 3, [(300, 1)]⟩] 7
        ((List.range 65).map (fun i => ⟨i, 1⟩))).2
      = [204] ∧
    ((computeBuckets [] 7 ((List.range 65).map (fun i => ⟨i, 1⟩))).1.map
        (fun b => b.events.length))
      = [30, 30, 5] ∧
    (computeBuckets [] 7 ((List.range 65).map (fun i => ⟨i, 1⟩))).2 = [] := by
  decide

/-!
## Dashboard recomputation (`SyncTroupe.persistSync`,
sync.ts lines 389-434, 492-507 and 523-539)

Per-event-type totals are accumulated by the event loop (lines 424-434,
one increment per event-map entry with that `eventTypeId`) and by the
attendance loop (lines 492-507, one increment per attendance record with
that `typeId`); they are therefore modelled as counts over the event list
and the record list.  `dashboardUpdate.totalAttendees` is never
initialized (lines 390-406), so its JS value starts `undefined` and every
`+= 1` (line 506) leaves it `NaN`; it is modelled as an `Option Int` that
stays `none`, and the guard `totalAttendees > 0` (line 535) is false on
`none`, exactly as `NaN > 0` is false.  Percentages are exact rationals;
`Math.round` on the non-negative finite values that occur is
`⌊x + 1/2⌋`. -/

/-- An event-map entry as seen by the dashboard pass: its event-type
linkage. -/
structure DashEvent where
  typeId : Option Nat
  deriving DecidableEq

/-- An attendance record as seen by the dashboard pass: its event-type
linkage. -/
structure DashRecord where
  typeId : Option Nat
  deriving DecidableEq

/-- `dashboardUpdate.totalEvents` (line 428: one increment per event-map
entry). -/
def totalEventsDash (events : List DashEvent) : Nat := events.length

/-- `dashboardUpdate.totalEventsByEventType[t].value` (line 431). -/
def totalEventsByType (events : List DashEvent) (t : Nat) : Nat :=
  (events.filter (fun e => e.typeId == some t)).length

/-- `dashboardUpdate.totalAttendeesByEventType[t].value` (line 502). -/
def totalAttendeesByType (records : List DashRecord) (t : Nat) : Nat :=
  (records.filter (fun r => r.typeId == some t)).length

/-- `dashboardUpdate.totalAttendees`: never initialized, incremented once
per record (line 506); `undefined + 1` and every further increment is
`NaN`, modelled as `none`. -/
def totalAttendeesDash (records : List DashRecord) : Option Int :=
  records.foldl (fun acc _ => acc.map (fun n => n + 1)) none

/-- JS `Math.round` for the non-negative finite arguments that occur
here: half-up rounding. -/
def jsRound (q : ℚ) : ℤ := Int.floor (q + 1 / 2)

/-- Lines 533-534: average attendees of an event type — guarded to 0 when
the event type has no events. -/
def avgAttendeesByType (events : List DashEvent) (records : List DashRecord)
    (t : Nat) : ℤ :=
  if 0 < totalEventsByType events t then
    jsRound ((totalAttendeesByType records t : ℚ) / (totalEventsByType events t : ℚ))
  else 0

/-- Lines 535-536: attendee percentage share of an event type — the guard
`totalAttendees > 0` is false when `totalAttendees` is `NaN` (`none`). -/
def attendeePctByType (records : List DashRecord) (t : Nat) : ℚ :=
  match totalAttendeesDash records with
  | none => 0
  | some n =>
      if 0 < n then (totalAttendeesByType records t : ℚ) / (n : ℚ) else 0

/-- Lines 537-538: event percentage share of an event type — guarded to 0
when the tenant has no events at all. -/
def eventPctByType (events : List DashEvent) (t : Nat) : ℚ :=
  if 0 < totalEventsDash events then
    (totalEventsByType events t : ℚ) / (totalEventsDash events : ℚ)
  else 0

/-- `dashboardUpdate.totalAttendees` is `NaN` on every input: the field is
never initialized and `Option.map` keeps `none`. -/
theorem totalAttendeesDash_eq_none (records : List DashRecord) :
    totalAttendeesDash records = none := by
  suffices h : ∀ l : List DashRecord,
      l.foldl (fun (acc : Option Int) _ => acc.map (fun n => n + 1)) none = none by
    exact h records
  intro l
  induction l with
  | nil => rfl
  | cons r rs ih => simpa [List.foldl_cons] using ih

/-- C9: an event type with zero events gets average attendees 0 and
attendee / event percentage shares 0 (every division in the per-event-type
statistics is guarded, so none is performed with a zero denominator), and
an event type with events gets the integer (half-up) rounding of its
attendee count divided by its event count. -/
theorem C9_dashboard_zero_event_types (events : List DashEvent)
    (records : List DashRecord) (t : Nat)
    (h : totalEventsByType events t = 0) :
    (avgAttendeesByType events records t = 0 ∧
      attendeePctByType records t = 0 ∧
      eventPctByType events t = 0) ∧
    (∀ u : Nat, 0 < totalEventsByType events u →
      avgAttendeesByType events records u =
        jsRound ((totalAttendeesByType records u : ℚ) /
          (totalEventsByType events u : ℚ))) := by
  refine ⟨⟨?_, ?_, ?_⟩, ?_⟩
  · simp [avgAttendeesByType, h]
  · simp [attendeePctByType, totalAttendeesDash_eq_none]
  · simp [eventPctByType, h]
  · intro u hu
    simp [avgAttendeesByType, hu]

/-- Witness for C9: one event of type 1 and two attendance records of type
1; event type 2 has zero events. -/
theorem C9_dashboard_zero_event_types_witness :
    ((avgAttendeesByType [⟨some 1⟩] [⟨some 1⟩, ⟨some 1⟩] 2 = 0 ∧
      attendeePctByType [⟨some 1⟩, ⟨some 1⟩] 2 = 0 ∧
      eventPctByType [⟨some 1⟩] 2 = 0) ∧
    (∀ u : Nat, 0 < totalEventsByType [⟨some 1⟩] u →
      avgAttendeesByType [⟨some 1⟩] [⟨some 1⟩, ⟨some 1⟩] u =
        jsRound ((totalAttendeesByType [⟨some 1⟩, ⟨some 1⟩] u : ℚ) /
          (totalEventsByType [⟨some 1⟩] u : ℚ)))) :=
  C9_dashboard_zero_event_types [⟨some 1⟩] [⟨some 1⟩, ⟨some 1⟩] 2 (by decide)

/-!
## The transactional commit (`SyncTroupe.persistSync`,
sync.ts lines 541-580)

The transaction issues, in order: a dashboard `updateOne` upsert, a bulk
`updateOne`-upsert per event in `updateEvents` (which contains every
event-map entry, lines 423-427), a bulk upsert per member in
`updateAudience`, `deleteMany` on `membersToDelete`, a bulk upsert per
bucket in `updateEventsAttended`, `deleteMany` on
`eventsAttendedToDelete`, and the limits-ledger increment.  No delete is
ever issued against the events collection.  Collections are association
lists keyed by document id (`Nat`); payload types are abstract.
-/

/-- A sequence of `updateOne`-with-upsert operations keyed by `_id`. -/
def upsertMany {β : Type} (coll : List (Nat × β)) (docs : List (Nat × β)) :
    List (Nat × β) :=
  docs.foldl (fun c d => setA c d.1 d.2) coll

/-- `deleteMany({ _id: { $in: ids } })`. -/
def deleteMany {β : Type} (coll : List (Nat × β)) (ids : List Nat) :
    List (Nat × β) :=
  coll.filter (fun kv => !(ids.contains kv.1))

/-- The document collections touched by the commit; `δ`, `ε`, `μ`, `β` are
the dashboard, event, member and bucket payload types. -/
structure CommitDb (δ ε μ β : Type) where
  dashboard : Option δ
  events : List (Nat × ε)
  audience : List (Nat × μ)
  eventsAttended : List (Nat × β)

/-- The write sets assembled by `persistSync` before the transaction. -/
structure PersistOps (δ ε μ β : Type) where
  dashboardUpdate : δ
  updateEvents : List (Nat × ε)
  updateAudience : List (Nat × μ)
  membersToDelete : List Nat
  updateEventsAttended : List (Nat × β)
  eventsAttendedToDelete : List Nat

/-- sync.ts lines 541-580: the all-or-nothing commit.  The events
collection only receives upserts; deletes are issued only against the
audience and events-attended collections. -/
def persistCommit {δ ε μ β : Type} (db : CommitDb δ ε μ β)
    (ops : PersistOps δ ε μ β) : CommitDb δ ε μ β :=
  { dashboard := some ops.dashboardUpdate
    events := upsertMany db.events ops.updateEvents
    audience := deleteMany (upsertMany db.audience ops.updateAudience)
      ops.membersToDelete
    eventsAttended := deleteMany
      (upsertMany db.eventsAttended ops.updateEventsAttended)
      ops.eventsAttendedToDelete }

/-- `setA` keeps every existing key. -/
theorem isSome_lookupA_setA {β : Type} (c : List (Nat × β)) (k i : Nat)
    (v : β) (h : (lookupA c i).isSome) : (lookupA (setA c k v) i).isSome := by
  induction c with
  | nil => simp [lookupA] at h
  | cons kv rest ih =>
      rcases kv with ⟨k0, v0⟩
      by_cases hk : k = k0
      · subst hk
        by_cases hik : i = k
        · simp [setA, lookupA, hik]
        · simp only [lookupA, if_neg hik] at h
          simp [setA, lookupA, hik, h]
      · by_cases hik : i = k0
        · simp [setA, lookupA, hk, hik]
        · simp only [lookupA, if_neg hik] at h
          simp only [setA, if_neg hk, lookupA, if_neg hik]
          exact ih h

/-- `setA` makes its own key present. -/
theorem isSome_lookupA_setA_self {β : Type} (c : List (Nat × β)) (k : Nat)
    (v : β) : (lookupA (setA c k v) k).isSome := by
  induction c with
  | nil => simp [setA, lookupA]
  | cons kv rest ih =>
      by_cases hk : k = kv.1
      · simp [setA, lookupA, hk]
      · simpa [setA, lookupA, hk] using ih

/-- A bulk upsert keeps every existing key. -/
theorem isSome_lookupA_upsertMany {β : Type} (docs : List (Nat × β))
    (c : List (Nat × β)) (i : Nat) (h : (lookupA c i).isSome) :
    (lookupA (upsertMany c docs) i).isSome := by
  induction docs generalizing c with
  | nil => simpa [upsertMany] using h
  | cons d rest ih =>
      simp only [upsertMany, List.foldl_cons] at ih ⊢
      exact ih (setA c d.1 d.2) (isSome_lookupA_setA c d.1 i d.2 h)

/-- A bulk upsert makes every upserted key present. -/
theorem isSome_lookupA_upsertMany_mem {β : Type} (docs : List (Nat × β))
    (c : List (Nat × β)) (i : Nat) (h : i ∈ docs.map Prod.fst) :
    (lookupA (upsertMany c docs) i).isSome := by
  induction docs generalizing c with
  | nil => simp at h
  | cons d rest ih =>
      simp only [List.map_cons, List.mem_cons] at h
      simp only [upsertMany, List.foldl_cons] at ih ⊢
      rcases h with h | h
      · subst h
        exact isSome_lookupA_upsertMany rest (setA c d.1 d.2) d.1
          (isSome_lookupA_setA_self c d.1 d.2)
      · exact ih (setA c d.1 d.2) h

/-- C10: the commit never deletes an event document — every event present
in the events collection before the commit is still present after it, and
every event in the upsert list (which `persistSync` populates with every
discovered or previously stored event in the event map) is present after
it.  Deletes are issued only against the audience and events-attended
collections (see `persistCommit`). -/
theorem C10_commit_never_deletes_events {δ ε μ β : Type}
    (db : CommitDb δ ε μ β) (ops : PersistOps δ ε μ β) (i : Nat) :
    ((lookupA db.events i).isSome →
      (lookupA (persistCommit db ops).events i).isSome) ∧
    (i ∈ ops.updateEvents.map Prod.fst →
      (lookupA (persistCommit db ops).events i).isSome) := by
  constructor
  · intro h
    exact isSome_lookupA_upsertMany ops.updateEvents db.events i h
  · intro h
    exact isSome_lookupA_upsertMany_mem ops.updateEvents db.events i h

/-- Witness for C10: a database holding event 1, a commit upserting the
discovered event 2 and deleting member 9 and bucket 8 — events 1 and 2 are
both present after the commit. -/
theorem C10_commit_never_deletes_events_witness :
    (lookupA (persistCommit
        (⟨none, [(1, 0)], [(9, 0)], [(8, 0)]⟩ : CommitDb Int Int Int Int)
        (⟨0, [(2, 5)], [], [9], [], [8]⟩ : PersistOps Int Int Int Int)).events
        1).isSome ∧
    (lookupA (persistCommit
        (⟨none, [(1, 0)], [(9, 0)], [(8, 0)]⟩ : CommitDb Int Int Int Int)
        (⟨0, [(2, 5)], [], [9], [], [8]⟩ : PersistOps Int Int Int Int)).events
        2).isSome := by
  constructor
  · exact (C10_commit_never_deletes_events
      (⟨none, [(1, 0)], [(9, 0)], [(8, 0)]⟩ : CommitDb Int Int Int Int)
      (⟨0, [(2, 5)], [], [9], [], [8]⟩ : PersistOps Int Int Int Int) 1).1
      (by decide)
  · exact (C10_commit_never_deletes_events
      (⟨none, [(1, 0)], [(9, 0)], [(8, 0)]⟩ : CommitDb Int Int Int Int)
      (⟨0, [(2, 5)], [], [9], [], [8]⟩ : PersistOps Int Int Int Int) 2).2
      (by decide)

end Stringplay
